import Mathlib

/-!
Verification of the emma service core (service state, digest generation,
action-item extraction and the monitoring cycle) against its natural-language
specification.

The Python sources are shallowly embedded:
 - wall-clock timestamps are abstract `Nat` ticks (the unit is hours, matching
   the `timedelta(hours=...)` arithmetic of `digest.py`; SQLite compares the
   stored ISO strings, which is order-isomorphic to comparing the instants);
 - SQLite tables are Lean lists of row structures, one structure per table of
   `state.py`; `INSERT OR REPLACE` deletes the conflicting primary-key row and
   appends the new one;
 - `uuid.uuid4()` and `datetime.now()` are injected as explicit parameters;
 - exceptions are `Except PyErr`; a Python call with a keyword argument the
   callee does not declare raises `TypeError`, and attribute access on a
   pydantic model for a field the model does not declare raises
   `AttributeError` — both are modelled explicitly because the repository's
   `service/state.py` and `config.py` lag behind their callers;
 - collaborator boundaries (LLM chat/classify/extract, rules engine, mail
   sources, storage faults) are injected as function/outcome parameters, the
   way the repository's own tests inject mocks.
-/

/-- Python exception classes relevant to the embedded code. -/
inductive PyErr where
  | typeError
  | attributeError
  | exception (msg : String)
  deriving Repr, DecidableEq

/-- Message text used when an exception is interpolated into an f-string. -/
def pyErrMsg : PyErr → String
  | PyErr.typeError => "TypeError"
  | PyErr.attributeError => "AttributeError"
  | PyErr.exception m => m

/-- Python call semantics for keyword arguments: a call whose keyword-argument
names are not all among the callee's declared parameter names raises
`TypeError`; otherwise the callee body runs. -/
def pyCall {α : Type} (params args : List String) (run : Unit → α) : Except PyErr α :=
  if args.all (fun a => params.contains a) then Except.ok (run ()) else Except.error PyErr.typeError

/-- `dict.get(key, default)` on a string-valued Python dict. -/
def dictGet (d : List (String × String)) (k dflt : String) : String :=
  match d.find? (fun p => decide (p.1 = k)) with
  | some p => p.2
  | none => dflt

/-! ## SHA-256 (`hashlib.sha256(data.encode()).hexdigest()`)

A direct executable implementation over `Nat`, so that the dedup identity of
`state.py` can be evaluated inside proofs. -/

/-- UTF-8 encoding of one code point (Python `str.encode()`). -/
def charUtf8 (n : Nat) : List Nat :=
  if n < 128 then [n]
  else if n < 2048 then [192 + n / 64, 128 + n % 64]
  else if n < 65536 then [224 + n / 4096, 128 + (n / 64) % 64, 128 + n % 64]
  else [240 + n / 262144, 128 + (n / 4096) % 64, 128 + (n / 64) % 64, 128 + n % 64]

/-- UTF-8 bytes of a string (Python `data.encode()`). -/
def utf8Bytes (s : String) : List Nat :=
  s.data.flatMap (fun c => charUtf8 c.toNat)

/-- 32-bit right rotation over `Nat`. -/
def rotr32 (x n : Nat) : Nat :=
  ((x >>> n) ||| (x <<< (32 - n))) % 4294967296

/-- SHA-256 round constants (FIPS 180-4, here as decimal numerals). -/
def sha256K : List Nat :=
  [1116352408, 1899447441, 3049323471, 3921009573, 961987163,
   1508970993, 2453635748, 2870763221, 3624381080, 310598401,
   607225278, 1426881987, 1925078388, 2162078206, 2614888103,
   3248222580, 3835390401, 4022224774, 264347078, 604807628,
   770255983, 1249150122, 1555081692, 1996064986, 2554220882,
   2821834349, 2952996808, 3210313671, 3336571891, 3584528711,
   113926993, 338241895, 666307205, 773529912, 1294757372,
   1396182291, 1695183700, 1986661051, 2177026350, 2456956037,
   2730485921, 2820302411, 3259730800, 3345764771, 3516065817,
   3600352804, 4094571909, 275423344, 430227734, 506948616,
   659060556, 883997877, 958139571, 1322822218, 1537002063,
   1747873779, 1955562222, 2024104815, 2227730452, 2361852424,
   2428436474, 2756734187, 3204031479, 3329325298]

/-- SHA-256 initial hash value (FIPS 180-4, here as decimal numerals). -/
def sha256H0 : List Nat :=
  [1779033703, 3144134277, 1013904242, 2773480762,
   1359893119, 2600822924, 528734635, 1541459225]

/-- Big-endian bytes of a number, fixed width. -/
def natToBytesBE (n count : Nat) : List Nat :=
  (List.range count).map (fun i => (n >>> (8 * (count - 1 - i))) % 256)

/-- SHA-256 message padding. -/
def sha256Pad (msg : List Nat) : List Nat :=
  let len := msg.length
  let k := (64 + 56 - ((len + 1) % 64)) % 64
  msg ++ [128] ++ List.replicate k 0 ++ natToBytesBE (8 * len) 8

/-- Split a byte list into 64-byte blocks (fuel-driven structural recursion). -/
def toBlocks64 : Nat → List Nat → List (List Nat)
  | 0, _ => []
  | _ + 1, [] => []
  | fuel + 1, l => l.take 64 :: toBlocks64 fuel (l.drop 64)

/-- The sixteen 32-bit big-endian words of one 64-byte block. -/
def blockWords (b : List Nat) : List Nat :=
  (List.range 16).map (fun i =>
    b.getD (4 * i) 0 * 16777216 + b.getD (4 * i + 1) 0 * 65536 +
    b.getD (4 * i + 2) 0 * 256 + b.getD (4 * i + 3) 0)

/-- Message-schedule extension: append `k` more words to `w`. -/
def sha256Extend : Nat → List Nat → List Nat
  | 0, w => w
  | k + 1, w =>
    let n := w.length
    let w2 := w.getD (n - 2) 0
    let w7 := w.getD (n - 7) 0
    let w15 := w.getD (n - 15) 0
    let w16 := w.getD (n - 16) 0
    let s0 := (rotr32 w15 7) ^^^ (rotr32 w15 18) ^^^ (w15 >>> 3)
    let s1 := (rotr32 w2 17) ^^^ (rotr32 w2 19) ^^^ (w2 >>> 10)
    sha256Extend k (w ++ [(w16 + s0 + w7 + s1) % 4294967296])

/-- One compression round. `s` is the running `[a,b,c,d,e,f,g,h]`. -/
def sha256Round (ws : List Nat) (i : Nat) (s : List Nat) : List Nat :=
  let a := s.getD 0 0
  let b := s.getD 1 0
  let c := s.getD 2 0
  let d := s.getD 3 0
  let e := s.getD 4 0
  let f := s.getD 5 0
  let g := s.getD 6 0
  let h := s.getD 7 0
  let bigS1 := (rotr32 e 6) ^^^ (rotr32 e 11) ^^^ (rotr32 e 25)
  let ch := (e &&& f) ^^^ ((4294967295 - e) &&& g)
  let t1 := (h + bigS1 + ch + sha256K.getD i 0 + ws.getD i 0) % 4294967296
  let bigS0 := (rotr32 a 2) ^^^ (rotr32 a 13) ^^^ (rotr32 a 22)
  let maj := (a &&& b) ^^^ (a &&& c) ^^^ (b &&& c)
  let t2 := (bigS0 + maj) % 4294967296
  [(t1 + t2) % 4294967296, a, b, c, (d + t1) % 4294967296, e, f, g]

/-- Process one 64-byte block. -/
def sha256Block (h : List Nat) (b : List Nat) : List Nat :=
  let ws := sha256Extend 48 (blockWords b)
  let s := (List.range 64).foldl (fun s i => sha256Round ws i s) h
  (List.zip h s).map (fun p => (p.1 + p.2) % 4294967296)

/-- SHA-256 of a byte list, as eight 32-bit words. -/
def sha256Words (msg : List Nat) : List Nat :=
  let padded := sha256Pad msg
  (toBlocks64 padded.length padded).foldl sha256Block sha256H0

/-- Lowercase hex digit. -/
def hexDigit (n : Nat) : Char :=
  if n < 10 then Char.ofNat (48 + n) else Char.ofNat (87 + n)

/-- Eight hex digits of a 32-bit word, big-endian. -/
def word8Hex (w : Nat) : List Char :=
  (List.range 8).map (fun i => hexDigit ((w >>> (4 * (7 - i))) % 16))

/-- `hashlib.sha256(s.encode()).hexdigest()`. -/
def sha256hex (s : String) : String :=
  String.mk ((sha256Words (utf8Bytes s)).flatMap word8Hex)

set_option maxRecDepth 100000

/-! ## Deduplication identity (`state.py` lines 21-30) -/

/-- `_generate_email_hash(email_id, source, folder, message_id=None)`:
uses `message_id` if truthy (present and non-empty), otherwise
`f"{source}:{folder}:{email_id}"`, and hashes the result. -/
def _generate_email_hash (email_id source folder : String) (message_id : Option String) : String :=
  let data :=
    match message_id with
    | some m => if m = "" then source ++ ":" ++ folder ++ ":" ++ email_id else m
    | none => source ++ ":" ++ folder ++ ":" ++ email_id
  sha256hex data

/-! ## Data model (`models.py`) -/

/-- `EmailPriority` (models.py). -/
inductive EmailPriority where
  | low
  | normal
  | high
  | urgent
  deriving Repr, DecidableEq

/-- The `.value` string of an `EmailPriority`. -/
def EmailPriority.value : EmailPriority → String
  | EmailPriority.low => "low"
  | EmailPriority.normal => "normal"
  | EmailPriority.high => "high"
  | EmailPriority.urgent => "urgent"

/-- `EmailPriority(s)`: the enum constructor, `none` on the `ValueError` case. -/
def emailPriorityFromString (s : String) : Option EmailPriority :=
  if s = "low" then some EmailPriority.low
  else if s = "normal" then some EmailPriority.normal
  else if s = "high" then some EmailPriority.high
  else if s = "urgent" then some EmailPriority.urgent
  else none

/-- `ActionItemStatus` (models.py). -/
inductive ActionItemStatus where
  | pending
  | in_progress
  | completed
  | dismissed
  deriving Repr, DecidableEq

/-- The `.value` string of an `ActionItemStatus`. -/
def ActionItemStatus.value : ActionItemStatus → String
  | ActionItemStatus.pending => "pending"
  | ActionItemStatus.in_progress => "in_progress"
  | ActionItemStatus.completed => "completed"
  | ActionItemStatus.dismissed => "dismissed"

/-- `DigestStatus` (models.py). -/
inductive DigestStatus where
  | pending
  | delivered
  | failed
  deriving Repr, DecidableEq

/-- A string-valued Python dict, used for the `classification` blob
(`{category, priority}`). -/
abbrev Dict := List (String × String)

/-- A JSON-ish scalar for the free-form `metadata` dict of an action item. -/
inductive JLit where
  | s (v : String)
  | q (v : Rat)
  deriving Repr, DecidableEq

/-- One row of the `processed_emails` table / `ProcessedEmail` model. -/
structure ProcessedEmailRow where
  id : String
  message_id : Option String
  email_id : String
  source : String
  folder : String
  processed_at : Nat
  digest_id : Option String
  classification : Option Dict
  llm_analysis : Option String
  subject : Option String
  from_addr : Option String
  date : Option Nat
  deriving Repr, DecidableEq

/-- One row of the `digests` table / `Digest` model. -/
structure Digest where
  id : String
  created_at : Nat
  period_start : Nat
  period_end : Nat
  email_count : Nat
  summary : String
  raw_content : Option String
  delivery_status : DigestStatus
  deriving Repr, DecidableEq

/-- One row of the `action_items` table / `ActionItem` model, as persisted by
`state.py` (note: no `relevance` column exists in `state.py`'s schema). -/
structure ActionItemRow where
  id : String
  email_id : String
  digest_id : Option String
  created_at : Nat
  title : String
  description : Option String
  priority : EmailPriority
  urgency : String
  due_date : Option Nat
  status : ActionItemStatus
  completed_at : Option Nat
  metadata : List (String × JLit)
  deriving Repr, DecidableEq

/-- The three tables owned by `ServiceState` (state.py). -/
structure ServiceState where
  processed_emails : List ProcessedEmailRow
  digests : List Digest
  action_items : List ActionItemRow
  deriving Repr, DecidableEq

/-- A fresh store (empty tables). -/
def emptyState : ServiceState := ⟨[], [], []⟩

/-- The fields of `Email` (models.py) that the service core reads. -/
structure Email where
  id : String
  source : String
  message_id : Option String
  subject : String
  from_addr : String
  folder : String
  deriving Repr, DecidableEq

/-! ## Ledger store operations (`state.py`) -/

/-- The `ProcessedEmail(...)` record built by `mark_email_processed`
(state.py lines 203-216). -/
def mkProcessedEmail (now : Nat) (email_id source folder : String) (message_id : Option String)
    (classification : Option Dict) (llm_analysis : Option String) (digest_id : Option String)
    (subject from_addr : Option String) (date : Option Nat) : ProcessedEmailRow :=
  { id := _generate_email_hash email_id source folder message_id
    message_id := message_id
    email_id := email_id
    source := source
    folder := folder
    processed_at := now
    digest_id := digest_id
    classification := classification
    llm_analysis := llm_analysis
    subject := subject
    from_addr := from_addr
    date := date }

/-- `mark_email_processed` (state.py lines 172-243): builds the record and
`INSERT OR REPLACE`s it on the primary key `id` (the dedup hash). SQLite's
`INSERT OR REPLACE` deletes any row with the conflicting key and inserts the
new row. Returns the record. -/
def ServiceState.mark_email_processed (st : ServiceState) (now : Nat)
    (email_id source folder : String) (message_id : Option String)
    (classification : Option Dict) (llm_analysis : Option String) (digest_id : Option String)
    (subject from_addr : Option String) (date : Option Nat) :
    ProcessedEmailRow × ServiceState :=
  let processed := mkProcessedEmail now email_id source folder message_id classification
    llm_analysis digest_id subject from_addr date
  (processed,
   { st with processed_emails :=
      st.processed_emails.filter (fun r => !(decide (r.id = processed.id))) ++ [processed] })

/-- `is_email_processed` (state.py lines 146-170): `SELECT 1 ... WHERE id = ?`. -/
def ServiceState.is_email_processed (st : ServiceState)
    (email_id source folder : String) (message_id : Option String) : Bool :=
  let hash_id := _generate_email_hash email_id source folder message_id
  st.processed_emails.any (fun r => decide (r.id = hash_id))

/-- Stable insertion into a list ordered by `processed_at` ascending. -/
def insertByTime (r : ProcessedEmailRow) : List ProcessedEmailRow → List ProcessedEmailRow
  | [] => [r]
  | x :: xs => if r.processed_at ≤ x.processed_at then r :: x :: xs else x :: insertByTime r xs

/-- Stable sort by `processed_at` ascending (`ORDER BY processed_at ASC`). -/
def sortByTime : List ProcessedEmailRow → List ProcessedEmailRow
  | [] => []
  | x :: xs => insertByTime x (sortByTime xs)

/-- `get_undigested_emails` (state.py lines 287-306):
`WHERE digest_id IS NULL AND processed_at >= ? ORDER BY processed_at ASC`. -/
def ServiceState.get_undigested_emails (st : ServiceState) (since : Nat) :
    List ProcessedEmailRow :=
  sortByTime (st.processed_emails.filter
    (fun r => r.digest_id.isNone && decide (since ≤ r.processed_at)))

/-- `update_email_digest_id` (state.py lines 308-320):
`UPDATE processed_emails SET digest_id = ? WHERE id = ?`. The new value is a
(non-null) string, per the `digest_id: str` signature. -/
def ServiceState.update_email_digest_id (st : ServiceState)
    (email_hash_id digest_id : String) : ServiceState :=
  { st with processed_emails := st.processed_emails.map (fun r =>
      if r.id = email_hash_id then { r with digest_id := some digest_id } else r) }

/-- `create_digest` (state.py lines 324-376). `uuid.uuid4()` and
`datetime.now()` are the injected `id` and `now`. -/
def ServiceState.create_digest (st : ServiceState) (id : String) (now : Nat)
    (period_start period_end : Nat) (email_count : Nat) (summary : String)
    (raw_content : Option String) : Digest × ServiceState :=
  let digest : Digest :=
    { id := id
      created_at := now
      period_start := period_start
      period_end := period_end
      email_count := email_count
      summary := summary
      raw_content := raw_content
      delivery_status := DigestStatus.pending }
  (digest, { st with digests := st.digests ++ [digest] })

/-- `update_digest_status` (state.py lines 415-431): returns
`cursor.rowcount > 0`. -/
def ServiceState.update_digest_status (st : ServiceState) (digest_id : String)
    (status : DigestStatus) : Bool × ServiceState :=
  (st.digests.any (fun d => decide (d.id = digest_id)),
   { st with digests := st.digests.map (fun d =>
      if d.id = digest_id then { d with delivery_status := status } else d) })

/-- `create_action_item` (state.py lines 435-501). Its keyword parameters are
exactly `description, priority, urgency, due_date, digest_id, metadata` —
there is no `relevance` parameter and no `relevance` column. Status starts
`pending`, `completed_at` starts NULL, `metadata or {}`. -/
def ServiceState.create_action_item (st : ServiceState) (id : String) (now : Nat)
    (email_id title : String) (description : Option String) (priority : EmailPriority)
    (urgency : String) (due_date : Option Nat) (digest_id : Option String)
    (metadata : Option (List (String × JLit))) : ActionItemRow × ServiceState :=
  let item : ActionItemRow :=
    { id := id
      email_id := email_id
      digest_id := digest_id
      created_at := now
      title := title
      description := description
      priority := priority
      urgency := urgency
      due_date := due_date
      status := ActionItemStatus.pending
      completed_at := none
      metadata := metadata.getD [] }
  (item, { st with action_items := st.action_items ++ [item] })

/-- The declared parameter names of `ServiceState.create_action_item`
(state.py lines 435-446). -/
def createActionItemParams : List String :=
  ["email_id", "title", "description", "priority", "urgency", "due_date", "digest_id", "metadata"]

/-- The declared parameter names of `ServiceState.list_action_items`
(state.py lines 523-530). -/
def listActionItemsParams : List String :=
  ["status", "priority", "email_id", "limit"]

/-- `ORDER BY due_date ASC NULLS LAST, created_at DESC` on action items. -/
def actionItemLE (a b : ActionItemRow) : Bool :=
  match a.due_date, b.due_date with
  | some x, some y => decide (x < y) || (decide (x = y) && decide (b.created_at ≤ a.created_at))
  | some _, none => true
  | none, some _ => false
  | none, none => decide (b.created_at ≤ a.created_at)

/-- Stable insertion for `actionItemLE`. -/
def insertActionItem (r : ActionItemRow) : List ActionItemRow → List ActionItemRow
  | [] => [r]
  | x :: xs => if actionItemLE r x then r :: x :: xs else x :: insertActionItem r xs

/-- Stable sort for `actionItemLE`. -/
def sortActionItems : List ActionItemRow → List ActionItemRow
  | [] => []
  | x :: xs => insertActionItem x (sortActionItems xs)

/-- `list_action_items` (state.py lines 523-563): optional equality filters on
status, priority and email, ordered by due date ascending with nulls last then
creation time descending, `LIMIT ?`. -/
def ServiceState.list_action_items (st : ServiceState) (status : Option ActionItemStatus)
    (priority : Option EmailPriority) (email_id : Option String) (limit : Nat) :
    List ActionItemRow :=
  let rows := st.action_items.filter (fun r =>
    (match status with | some s => decide (r.status = s) | none => true) &&
    (match priority with | some p => decide (r.priority = p) | none => true) &&
    (match email_id with | some e => decide (r.email_id = e) | none => true))
  (sortActionItems rows).take limit

/-- `update_action_status` (state.py lines 565-591):
`SET status = ?, completed_at = COALESCE(?, completed_at)` where the bound
value is `now` iff the new status is completed, else NULL; returns
`cursor.rowcount > 0`. -/
def ServiceState.update_action_status (st : ServiceState) (item_id : String)
    (status : ActionItemStatus) (now : Nat) : Bool × ServiceState :=
  let completed_at : Option Nat :=
    if status = ActionItemStatus.completed then some now else none
  (st.action_items.any (fun r => decide (r.id = item_id)),
   { st with action_items := st.action_items.map (fun r =>
      if r.id = item_id then
        { r with status := status,
                 completed_at := match completed_at with
                   | some t => some t
                   | none => r.completed_at }
      else r) })

/-- `cleanup_old_data` (state.py lines 595-634): deletes processed emails and
digests older than the cutoff, and completed/dismissed action items created
before the cutoff. `days` is converted to the hour tick unit. -/
def ServiceState.cleanup_old_data (st : ServiceState) (now days : Nat) : ServiceState :=
  let cutoff := now - days * 24
  { processed_emails := st.processed_emails.filter (fun r => !(decide (r.processed_at < cutoff)))
    digests := st.digests.filter (fun d => !(decide (d.created_at < cutoff)))
    action_items := st.action_items.filter (fun r =>
      !((decide (r.status = ActionItemStatus.completed) ||
         decide (r.status = ActionItemStatus.dismissed)) &&
        decide (r.created_at < cutoff))) }

/-! ## Action-item extraction (`action_items.py`, `config.py`) -/

/-- `ActionItemConfig` (config.py lines 161-164). The only declared field is
`auto_extract`; in particular `confidence_threshold` is NOT declared
(pydantic ignores unknown constructor keywords, so no instance carries it). -/
structure ActionItemConfig where
  auto_extract : Bool := true
  deriving Repr, DecidableEq

/-- Python attribute access `self.config.confidence_threshold`
(action_items.py line 61). `ActionItemConfig` declares no such field, so the
access raises `AttributeError` on every instance. -/
def confidenceThresholdAttr (_cfg : ActionItemConfig) : Except PyErr Rat :=
  Except.error PyErr.attributeError

/-- One candidate dict returned by the LLM for action-item extraction; each
field is `.get`-accessed with a default, so each is optional. -/
structure Candidate where
  title : Option String
  description : Option String
  priority : Option String
  urgency : Option String
  due_date : Option String
  confidence : Option Rat
  relevance : Option String
  deriving Repr, DecidableEq

/-- The keyword-argument names of the `self.state.create_action_item(...)`
call in `extract_from_email` (action_items.py lines 88-101) — note
`relevance`, which `state.py`'s `create_action_item` does not declare. -/
def extractCreateCallKwargs : List String :=
  ["email_id", "title", "description", "priority", "urgency", "due_date", "relevance", "metadata"]

/-- Python truthiness-based `x or default` for an optional string. -/
def pyOr (o : Option String) (dflt : String) : String :=
  match o with
  | some s => if s = "" then dflt else s
  | none => dflt

/-- A digit's value, `none` for a non-digit. -/
def digitVal (c : Char) : Option Nat :=
  if c.isDigit then some (c.toNat - 48) else none

/-- Defensive `datetime.fromisoformat` on the `YYYY-MM-DD` shape the
extraction prompt requests; any other shape fails (and the caller's
`try/except` turns failure into an absent date). The returned `Nat` is the
abstract tick encoding of the date. -/
def parseIsoDate (s : String) : Option Nat :=
  match s.data with
  | [y1, y2, y3, y4, h1, m1, m2, h2, d1, d2] =>
    if h1 = '-' && h2 = '-' then
      match digitVal y1, digitVal y2, digitVal y3, digitVal y4,
            digitVal m1, digitVal m2, digitVal d1, digitVal d2 with
      | some a, some b, some c, some d, some e, some f, some g, some h =>
        some ((((a * 10 + b) * 10 + c) * 10 + d) * 10000 + (e * 10 + f) * 100 + (g * 10 + h))
      | _, _, _, _, _, _, _, _ => none
    else none
  | _ => none

/-- A Python list comprehension with a filtering condition: the condition is
evaluated per element, left to right, and its first exception aborts the
whole comprehension. -/
def filterME {α : Type} (p : α → Except PyErr Bool) : List α → Except PyErr (List α)
  | [] => Except.ok []
  | x :: xs => do
    let b ← p x
    let rest ← filterME p xs
    pure (if b then x :: rest else rest)

/-- The body of the `try` block of `extract_from_email`
(action_items.py lines 53-104): confidence filtering (lines 58-68), then per
surviving candidate defensive priority/due-date parsing and persistence via
`create_action_item` with the keyword arguments of lines 88-101. The
`_extract_detailed` result is `extracted0`; `freshIds` injects `uuid4`. -/
def extractTryBody (st : ServiceState) (cfg : ActionItemConfig) (extracted0 : List Candidate)
    (email : Email) (email_hash : String) (now : Nat) (freshIds : Nat → String) :
    Except PyErr (List ActionItemRow × ServiceState) := do
  let extracted ← filterME (fun i => do
      let threshold ← confidenceThresholdAttr cfg
      pure (decide (threshold ≤ i.confidence.getD 1))) extracted0
  extracted.foldlM (fun (acc : List ActionItemRow × ServiceState) item_data => do
      let priority_str := (item_data.priority.getD "normal").toLower
      let priority := match emailPriorityFromString priority_str with
        | some p => p
        | none => EmailPriority.normal
      let due_date := match item_data.due_date with
        | some s => if s = "" then none else parseIsoDate s
        | none => none
      let r ← pyCall createActionItemParams extractCreateCallKwargs (fun _ =>
        acc.2.create_action_item (freshIds acc.1.length) now email_hash
          (item_data.title.getD "Untitled action") item_data.description priority
          (item_data.urgency.getD "normal") due_date none
          (some [("email_subject", JLit.s email.subject),
                 ("email_from", JLit.s email.from_addr),
                 ("confidence", JLit.q (item_data.confidence.getD 1))]))
      pure (acc.1 ++ [r.1], r.2))
    ([], st)

/-- `extract_from_email` (action_items.py lines 35-108). With no LLM
processor it returns `[]` (lines 44-46). Otherwise it computes the dedup
identity (lines 49-51) and runs the `try` block; any exception — from
`_extract_detailed` (whose LLM chat/JSON parsing is the injected `llm`
outcome) or from the body — is caught at the top level and yields `[]`
(lines 106-108). -/
def extract_from_email (st : ServiceState) (cfg : ActionItemConfig)
    (llm : Option (Except PyErr (List Candidate))) (email : Email) (now : Nat)
    (freshIds : Nat → String) : List ActionItemRow × ServiceState :=
  match llm with
  | none => ([], st)
  | some detailed =>
    let email_hash := _generate_email_hash email.id email.source email.folder email.message_id
    match (do
      let extracted ← detailed
      extractTryBody st cfg extracted email email_hash now freshIds) with
    | Except.ok r => r
    | Except.error _ => ([], st)

/-! ## Digest generation (`digest.py`, `config.py`) -/

/-- `DigestConfig` (config.py lines 139-147); `schedule` and `delivery` are
not read by `generate`/`_generate_markdown` and are omitted. -/
structure DigestConfig where
  enabled : Bool := true
  period_hours : Nat := 12
  min_emails : Nat := 1
  include_action_items : Bool := true
  deriving Repr, DecidableEq

/-- The digest exclusion set (digest.py line 60). -/
def excluded_categories : List String := ["promotional", "spam", "newsletter"]

/-- The keyword-argument names of the
`self.state.list_action_items(relevance="direct", limit=20)` call
(digest.py line 245) — note `relevance`, which `state.py`'s
`list_action_items` does not declare. -/
def digestListActionItemsKwargs : List String := ["relevance", "limit"]

/-- `(e.classification or {}).get("category", "other")`. -/
def emailCategory (e : ProcessedEmailRow) : String :=
  dictGet (e.classification.getD []) "category" "other"

/-- `(e.classification or {}).get("priority", "normal")`. -/
def emailPriorityStr (e : ProcessedEmailRow) : String :=
  dictGet (e.classification.getD []) "priority" "normal"

/-- `_generate_summary` (digest.py lines 102-154). The LLM collaborator is
injected as a function of the (at most 20, line 121) sampled emails; its
failure or an empty/whitespace reply falls back to the templated sentence. -/
def _generate_summary (llm : Option (List ProcessedEmailRow → Except PyErr String))
    (emails : List ProcessedEmailRow) : String :=
  if emails.isEmpty then "No emails to summarize."
  else
    match llm with
    | none => "Digest contains " ++ toString emails.length ++ " emails."
    | some chat =>
      match chat (emails.take 20) with
      | Except.ok s =>
        if s.trim = "" then "Digest contains " ++ toString emails.length ++ " emails."
        else s.trim
      | Except.error _ => "Digest contains " ++ toString emails.length ++ " emails."

/-- The raw-category → display-section map of `_generate_markdown`
(digest.py lines 204-211). -/
def section_map : List (String × String) :=
  [("personal", "Personal"), ("transactional", "Personal"), ("work_clients", "Work (Clients)"),
   ("work_admin", "Work (Admin)"), ("work", "Work (Admin)"), ("other", "Other")]

/-- `section_map.get(raw_category, "Other")`. -/
def sectionOf (raw : String) : String :=
  match section_map.find? (fun p => decide (p.1 = raw)) with
  | some p => p.2
  | none => "Other"

/-- The display-section order (digest.py line 214). -/
def section_order : List String := ["Personal", "Work (Clients)", "Work (Admin)", "Other"]

/-- The two rendered lines for one email entry (digest.py lines 231-240). -/
def renderEmailLines (e : ProcessedEmailRow) : List String :=
  let priority := emailPriorityStr e
  let marker := if priority = "urgent" then "🔴 " else if priority = "high" then "🟡 " else ""
  let s := pyOr e.subject "(no subject)"
  let subject := if 60 < s.length then s.take 57 ++ "..." else s
  let from_addr := pyOr e.from_addr "(unknown)"
  ["- " ++ marker ++ "**" ++ subject ++ "**", "  From: " ++ from_addr]

/-- The per-section rendering loop (digest.py lines 217-241), skipping empty
sections. -/
def renderSections (emails : List ProcessedEmailRow) : List String :=
  section_order.flatMap (fun sec =>
    let section_emails := emails.filter (fun e => decide (sectionOf (emailCategory e) = sec))
    if section_emails.isEmpty then []
    else ["## " ++ sec ++ " (" ++ toString section_emails.length ++ ")", ""]
      ++ section_emails.flatMap renderEmailLines ++ [""])

/-- The Action Items section lines (digest.py lines 251-260), given the
pending items; empty when there are none. Due dates print their tick. -/
def renderActionItems (pending_items : List ActionItemRow) : List String :=
  if pending_items.isEmpty then []
  else ["## Action Items", ""]
    ++ pending_items.flatMap (fun item =>
        let marker := if item.priority.value = "urgent" then "🔴"
          else if item.priority.value = "high" then "🟡" else ""
        let due_str := match item.due_date with
          | some d => " (due: " ++ toString d ++ ")"
          | none => ""
        ("- " ++ marker ++ " **" ++ item.title ++ "**" ++ due_str) ::
          (match item.description with
           | some d => if d = "" then [] else ["  " ++ d]
           | none => []))
    ++ [""]

/-- `_generate_markdown` (digest.py lines 177-265): header and summary block,
per-section email lists, and — when `include_action_items` is enabled — the
`self.state.list_action_items(relevance="direct", limit=20)` call of line 245
followed by the pending filter (lines 246-249) and rendering. Timestamps
print their tick in place of `strftime`. -/
def _generate_markdown (st : ServiceState) (cfg : DigestConfig) (emails : List ProcessedEmailRow)
    (summary : String) (now : Nat) : Except PyErr String := do
  let header : List String :=
    ["# Email Digest - " ++ toString now, "", "## Summary", "", summary, "",
     "**Total Emails:** " ++ toString emails.length, ""]
  let sections := renderSections emails
  let actionLines ←
    if cfg.include_action_items then do
      let action_items ← pyCall listActionItemsParams digestListActionItemsKwargs (fun _ =>
        st.list_action_items none none none 20)
      let pending_items := action_items.filter (fun item => decide (item.status.value = "pending"))
      pure (renderActionItems pending_items)
    else pure []
  pure (String.intercalate "\n"
    (header ++ sections ++ actionLines ++ ["---", "*Generated by Emma at " ++ toString now ++ "*"]))

/-- `generate` (digest.py lines 37-100): window computation, undigested
fetch, relevance filter, the two no-digest early returns (guarded by
`force`), summary and markdown rendering, the `"filtered"` sentinel links for
excluded records, digest persistence, and digest links for included records.
`digestUuid` injects `uuid.uuid4()`. -/
def generate (st : ServiceState) (cfg : DigestConfig)
    (llm : Option (List ProcessedEmailRow → Except PyErr String))
    (now : Nat) (digestUuid : String) (period_hours : Option Nat) (force : Bool) :
    Except PyErr (Option Digest × ServiceState) := do
  let period := match period_hours with
    | some p => if p = 0 then cfg.period_hours else p
    | none => cfg.period_hours
  let period_end := now
  let period_start := period_end - period
  let all_emails := st.get_undigested_emails period_start
  let emails := all_emails.filter (fun e => !(excluded_categories.contains (emailCategory e)))
  if emails.isEmpty && !force then
    pure (none, st)
  else if decide (emails.length < cfg.min_emails) && !force then
    pure (none, st)
  else do
    let summary := _generate_summary llm emails
    let raw_content ← _generate_markdown st cfg emails summary now
    let st1 := all_emails.foldl (fun s e =>
      if e ∈ emails then s else s.update_email_digest_id e.id "filtered") st
    let r := st1.create_digest digestUuid now period_start period_end emails.length summary
      (some raw_content)
    let st3 := emails.foldl (fun s e => s.update_email_digest_id e.id r.1.id) r.2
    pure (some r.1, st3)

/-! ## Monitor (`monitor.py`) -/

/-- `MonitorConfig` (config.py lines 150-158); `sources`/`folders` drive the
polling collaborators and are not read by `process_email`/`run_cycle`. -/
structure MonitorConfig where
  enabled : Bool := true
  auto_classify : Bool := true
  apply_rules : Bool := true
  extract_actions : Bool := true
  deriving Repr, DecidableEq

/-- The `result` dict of `process_email` (monitor.py lines 179-188). -/
structure ProcResult where
  email_id : String
  source : String
  folder : String
  classification : Option Dict
  llm_analysis : Option String
  rules_applied : List String
  action_items : List String
  errors : List String
  deriving Repr, DecidableEq

/-- Step 1 of `process_email` (monitor.py lines 190-203): classification when
enabled and an LLM is configured; its exception is caught, recorded, and
leaves the classification absent. `classify` is the presence of
`llm_processor` together with the outcome of `classify_email(email)` as the
`(category.value, priority.value)` pair. -/
def classificationStep (cfg : MonitorConfig)
    (classify : Option (Except PyErr (String × String))) : Option Dict × List String :=
  if cfg.auto_classify then
    match classify with
    | some (Except.ok (c, p)) => (some [("category", c), ("priority", p)], [])
    | some (Except.error e) => (none, ["Classification error: " ++ pyErrMsg e])
    | none => (none, [])
  else (none, [])

/-- Step 2 of `process_email` (monitor.py lines 205-214): rule application
when enabled; the rule outcome's own error list is appended on success, and
an escaping exception is caught and recorded. `rules` is the presence of
`rules_engine` with the `(rules_matched, errors)` of its processing result. -/
def rulesStep (cfg : MonitorConfig)
    (rules : Option (Except PyErr (List String × List String))) : List String × List String :=
  if cfg.apply_rules then
    match rules with
    | some (Except.ok r) => (r.1, r.2)
    | some (Except.error e) => ([], ["Rules error: " ++ pyErrMsg e])
    | none => ([], [])
  else ([], [])

/-- Step 3 of `process_email` (monitor.py lines 216-224): action extraction
when enabled; an escaping exception is caught and recorded. `extract` is the
presence of `action_manager`; it consumes the store state and returns the
extracted item ids (or the exception) together with the store state as
mutated so far. -/
def extractionStep (cfg : MonitorConfig)
    (extract : Option (ServiceState → (Except PyErr (List String)) × ServiceState))
    (st : ServiceState) : List String × List String × ServiceState :=
  if cfg.extract_actions then
    match extract with
    | some f =>
      match f st with
      | (Except.ok ids, st') => (ids, [], st')
      | (Except.error e, st') => ([], ["Action extraction error: " ++ pyErrMsg e], st')
    | none => ([], [], st)
  else ([], [], st)

/-- `process_email` (monitor.py lines 167-247): the three guarded enrichment
steps, then the unconditional `mark_email_processed` call (lines 226-234)
with whatever classification was obtained and `llm_analysis=None` (never set
by the monitor). `markFault` injects a storage fault of that call: a ledger
write failure propagates to the caller (the insert itself is atomic, so the
store is left as it was after step 3). The best-effort notmuch tagging of
lines 236-245 touches no ledger state and is outside the store model. -/
def process_email (cfg : MonitorConfig) (email : Email)
    (classify : Option (Except PyErr (String × String)))
    (rules : Option (Except PyErr (List String × List String)))
    (extract : Option (ServiceState → (Except PyErr (List String)) × ServiceState))
    (markFault : Option PyErr) (now : Nat) (st : ServiceState) :
    Except PyErr ProcResult × ServiceState :=
  let c := classificationStep cfg classify
  let r := rulesStep cfg rules
  let x := extractionStep cfg extract st
  match markFault with
  | some e => (Except.error e, x.2.2)
  | none =>
    let m := x.2.2.mark_email_processed now email.id email.source email.folder email.message_id
      c.1 none none none none none
    (Except.ok
      { email_id := email.id
        source := email.source
        folder := email.folder
        classification := c.1
        llm_analysis := none
        rules_applied := r.1
        action_items := x.1
        errors := c.2 ++ r.2 ++ x.2.1 }, m.2)

/-- The cycle statistics dict of `run_cycle` (monitor.py lines 258-264),
without the wall-clock fields. -/
structure CycleStats where
  emails_found : Nat
  emails_processed : Nat
  errors : Nat
  action_items_created : Nat
  deriving Repr, DecidableEq

/-- Componentwise sum of cycle statistics. -/
def CycleStats.add (a b : CycleStats) : CycleStats :=
  { emails_found := a.emails_found + b.emails_found
    emails_processed := a.emails_processed + b.emails_processed
    errors := a.errors + b.errors
    action_items_created := a.action_items_created + b.action_items_created }

/-- The per-message body of the `run_cycle` loop (monitor.py lines 272-281):
a successful processing bumps `emails_processed`, adds the extracted-item
count and the outcome's error count; an escaping exception is caught and
counted as one error. Either way the store advances to the state the
processing left behind. -/
def runStep (process : Email → ServiceState → Except PyErr ProcResult × ServiceState)
    (acc : CycleStats × ServiceState) (email : Email) : CycleStats × ServiceState :=
  match process email acc.2 with
  | (Except.ok result, st') =>
    ({ acc.1 with
        emails_processed := acc.1.emails_processed + 1
        action_items_created := acc.1.action_items_created + result.action_items.length
        errors := acc.1.errors + result.errors.length }, st')
  | (Except.error _, st') => ({ acc.1 with errors := acc.1.errors + 1 }, st')

/-- `run_cycle` (monitor.py lines 249-293): an exception escaping the poll
step aborts the cycle with one error and nothing found or processed;
otherwise `emails_found` is the poll count and each message is processed in
turn by `runStep`. `process` is the monitor's own `process_email` with its
collaborators bound (the repository's tests mock it the same way). -/
def run_cycle (poll : Except PyErr (List Email))
    (process : Email → ServiceState → Except PyErr ProcResult × ServiceState)
    (st : ServiceState) : CycleStats × ServiceState :=
  match poll with
  | Except.error _ =>
    ({ emails_found := 0, emails_processed := 0, errors := 1, action_items_created := 0 }, st)
  | Except.ok new_emails =>
    new_emails.foldl (runStep process)
      ({ emails_found := new_emails.length, emails_processed := 0, errors := 0,
         action_items_created := 0 }, st)

/-! ## The ledger-store operation alphabet

Used to state store-wide invariants ("no operation other than ... ever
..."): one constructor per mutating operation of `state.py`. -/

/-- A mutating ledger-store operation with its arguments. -/
inductive LedgerOp where
  | markProcessed (now : Nat) (email_id source folder : String) (message_id : Option String)
      (classification : Option Dict) (llm_analysis : Option String) (digest_id : Option String)
      (subject from_addr : Option String) (date : Option Nat)
  | updateEmailDigestId (email_hash_id digest_id : String)
  | createDigest (id : String) (now period_start period_end email_count : Nat)
      (summary : String) (raw_content : Option String)
  | updateDigestStatus (digest_id : String) (status : DigestStatus)
  | createActionItem (id : String) (now : Nat) (email_id title : String)
      (description : Option String) (priority : EmailPriority) (urgency : String)
      (due_date : Option Nat) (digest_id : Option String)
      (metadata : Option (List (String × JLit)))
  | updateActionStatus (item_id : String) (status : ActionItemStatus) (now : Nat)
  | cleanup (now days : Nat)

/-- The store transition of one ledger operation. -/
def LedgerOp.apply : LedgerOp → ServiceState → ServiceState
  | LedgerOp.markProcessed now e s f m c a d su fr dt, st =>
    (st.mark_email_processed now e s f m c a d su fr dt).2
  | LedgerOp.updateEmailDigestId h d, st => st.update_email_digest_id h d
  | LedgerOp.createDigest i now ps pe ec su rc, st => (st.create_digest i now ps pe ec su rc).2
  | LedgerOp.updateDigestStatus d s, st => (st.update_digest_status d s).2
  | LedgerOp.createActionItem i now e t de p u du dg me, st =>
    (st.create_action_item i now e t de p u du dg me).2
  | LedgerOp.updateActionStatus i s now, st => (st.update_action_status i s now).2
  | LedgerOp.cleanup now days, st => st.cleanup_old_data now days

/-- Whether every processed record with the given hash id carries a non-null
digest link. -/
def allLinked (st : ServiceState) (hid : String) : Bool :=
  st.processed_emails.all (fun r => !(decide (r.id = hid)) || r.digest_id.isSome)

/-- The record, if any, with the given hash id (first match). -/
def rowById (st : ServiceState) (hid : String) : Option ProcessedEmailRow :=
  st.processed_emails.find? (fun r => decide (r.id = hid))

/-- The digest link of the record with the given hash id (`none` when no such
record exists). -/
def rowDigest (st : ServiceState) (hid : String) : Option (Option String) :=
  (rowById st hid).map (fun r => r.digest_id)

/-- The action item, if any, with the given id (first match). -/
def actionById (st : ServiceState) (item_id : String) : Option ActionItemRow :=
  st.action_items.find? (fun r => decide (r.id = item_id))

/-! ## Result projections and scenario fixtures -/

/-- Whether an embedded Python call returned normally. -/
def exceptIsOk {α : Type} : Except PyErr α → Bool
  | Except.ok _ => true
  | Except.error _ => false

/-- The `errors` list of a processing outcome (empty when the processing
itself raised). -/
def resultErrors : Except PyErr ProcResult → List String
  | Except.ok r => r.errors
  | Except.error _ => []

/-- The `email_count` of a generated digest, `none` when `generate` returned
no digest or raised. -/
def genEmailCount : Except PyErr (Option Digest × ServiceState) → Option Nat
  | Except.ok (some d, _) => some d.email_count
  | Except.ok (none, _) => none
  | Except.error _ => none

/-- The store state after a `generate` call (unchanged on an exception, since
the exception interrupts the call before any store mutation). -/
def genState (fallback : ServiceState) : Except PyErr (Option Digest × ServiceState) → ServiceState
  | Except.ok (_, s) => s
  | Except.error _ => fallback

/-- The store state after processing each message in turn (each message's
processing consumes the state the previous one left behind). -/
def stateAfter (process : Email → ServiceState → Except PyErr ProcResult × ServiceState) :
    List Email → ServiceState → ServiceState
  | [], st => st
  | e :: es, st => stateAfter process es (process e st).2

/-- The dedup identity of a polled message. -/
def emailHash (e : Email) : String :=
  _generate_email_hash e.id e.source e.folder e.message_id

/-- C5 scenario: an undigested work email. -/
def c5Row1 : ProcessedEmailRow :=
  { id := "h1", message_id := none, email_id := "e1", source := "imap", folder := "INBOX",
    processed_at := 100, digest_id := none,
    classification := some [("category", "work"), ("priority", "high")],
    llm_analysis := none, subject := some "Invoice due Friday", from_addr := some "boss@x",
    date := none }

/-- C5 scenario: an undigested spam email. -/
def c5Row2 : ProcessedEmailRow :=
  { id := "h2", message_id := none, email_id := "e2", source := "imap", folder := "INBOX",
    processed_at := 200, digest_id := none,
    classification := some [("category", "spam"), ("priority", "normal")],
    llm_analysis := none, subject := some "Big sale", from_addr := some "spam@x",
    date := none }

/-- C5 scenario: an undigested personal email. -/
def c5Row3 : ProcessedEmailRow :=
  { id := "h3", message_id := none, email_id := "e3", source := "imap", folder := "INBOX",
    processed_at := 300, digest_id := none,
    classification := some [("category", "personal"), ("priority", "normal")],
    llm_analysis := none, subject := some "Checkup", from_addr := some "doc@x",
    date := none }

/-- C5 scenario: the store holding exactly the three undigested records. -/
def c5St0 : ServiceState := ⟨[c5Row1, c5Row2, c5Row3], [], []⟩

/-- C5 scenario: digest configuration under which rendering succeeds (the
action-items section disabled; all other fields at their config.py
defaults). -/
def c5Cfg : DigestConfig := { include_action_items := false }

/-- C5 scenario: the first `generate` call. -/
def c5Res1 : Except PyErr (Option Digest × ServiceState) :=
  generate c5St0 c5Cfg none 305 "d1" (some 250) false

/-- C5 scenario: the store after the first `generate`. -/
def c5St1 : ServiceState := genState c5St0 c5Res1

/-- C5 scenario: an immediately following unforced `generate`. -/
def c5Res2 : Except PyErr (Option Digest × ServiceState) :=
  generate c5St1 c5Cfg none 306 "d2" (some 250) false

/-- C5 scenario: an immediately following forced `generate`. -/
def c5Res2f : Except PyErr (Option Digest × ServiceState) :=
  generate c5St1 c5Cfg none 306 "d2" (some 250) true

/-- A linked record for the C3 amended witness. -/
def c3Row : ProcessedEmailRow :=
  { id := "h1", message_id := none, email_id := "e1", source := "imap", folder := "INBOX",
    processed_at := 1, digest_id := some "d1", classification := none, llm_analysis := none,
    subject := none, from_addr := none, date := none }

/-- An action item for the C10 witness. -/
def c10Row : ActionItemRow :=
  { id := "a1", email_id := "h1", digest_id := none, created_at := 3, title := "Pay invoice",
    description := none, priority := EmailPriority.high, urgency := "high", due_date := some 9,
    status := ActionItemStatus.pending, completed_at := none, metadata := [] }

/-- C8 scenario fixture: first polled message. -/
def c8m1 : Email :=
  { id := "e1", source := "imap", message_id := none, subject := "s1", from_addr := "f1",
    folder := "INBOX" }

/-- C8 scenario fixture: second polled message (its ledger write will fault). -/
def c8m2 : Email :=
  { id := "e2", source := "imap", message_id := none, subject := "s2", from_addr := "f2",
    folder := "INBOX" }

/-- C8 scenario fixture: third polled message. -/
def c8m3 : Email :=
  { id := "e3", source := "imap", message_id := none, subject := "s3", from_addr := "f3",
    folder := "INBOX" }

/-- C8 scenario fixture: a storage-fault oracle failing exactly on the second
message's ledger write. -/
def c8mf : Email → Option PyErr :=
  fun e => if e.id = "e2" then some (PyErr.exception "boom") else none

/-- C8 scenario fixture: the per-message processing with collaborators unset. -/
def c8process : Email → ServiceState → Except PyErr ProcResult × ServiceState :=
  fun e s => process_email {} e none none none (c8mf e) 7 s

/-- Propositional equality of embedded Python outcomes is decidable. -/
instance {ε α : Type} [DecidableEq ε] [DecidableEq α] : DecidableEq (Except ε α) := fun x y =>
  match x, y with
  | Except.ok a, Except.ok b =>
    if h : a = b then isTrue (h ▸ rfl) else isFalse (fun hc => h (Except.ok.inj hc))
  | Except.error a, Except.error b =>
    if h : a = b then isTrue (h ▸ rfl) else isFalse (fun hc => h (Except.error.inj hc))
  | Except.ok _, Except.error _ => isFalse (fun hc => Except.noConfusion hc)
  | Except.error _, Except.ok _ => isFalse (fun hc => Except.noConfusion hc)

/-- Sanity vector: SHA-256 of "abc" (FIPS 180-2 test vector). -/
theorem sha256hex_abc :
    sha256hex "abc" = "ba7816bf8f01cfea414140de5dae2223b00361a396177a9cb410ff61f20015ad" := by
  decide

/-! ## Helper lemmas -/

/-- Filtering away the matches of `p` leaves nothing for `find? p`. -/
theorem find?_filter_not {α : Type} (p : α → Bool) (l : List α) :
    (l.filter (fun a => !(p a))).find? p = none := by
  induction l with
  | nil => rfl
  | cons x xs ih =>
    cases h : p x <;> simp [List.filter_cons, h, List.find?, ih]

/-- Filtering away the matches of `p` is idempotent. -/
theorem filter_not_idem {α : Type} (p : α → Bool) (l : List α) :
    (l.filter (fun a => !(p a))).filter (fun a => !(p a)) = l.filter (fun a => !(p a)) := by
  induction l with
  | nil => rfl
  | cons x xs ih =>
    cases h : p x <;> simp [List.filter_cons, h, ih]

/-- Filtering away the matches of `p` then keeping them yields nothing. -/
theorem filter_of_filter_not {α : Type} (p : α → Bool) (l : List α) :
    (l.filter (fun a => !(p a))).filter p = [] := by
  induction l with
  | nil => rfl
  | cons x xs ih =>
    cases h : p x <;> simp [List.filter_cons, h, ih]

/-- `find?` after an erase-and-append `INSERT OR REPLACE` finds the new row. -/
theorem find?_replace {α : Type} (p : α → Bool) (l : List α) (x : α) (hx : p x = true) :
    ((l.filter (fun a => !(p a))) ++ [x]).find? p = some x := by
  induction l with
  | nil => simp [List.find?, hx]
  | cons y ys ih =>
    cases h : p y <;> simp [List.filter_cons, h, List.find?, ih]

/-- The freshly upserted record is found under its own hash id. -/
theorem rowById_mark (st : ServiceState) (now : Nat) (e s f : String) (m : Option String)
    (c : Option Dict) (a d su fr : Option String) (dt : Option Nat) :
    rowById (st.mark_email_processed now e s f m c a d su fr dt).2
        (_generate_email_hash e s f m)
      = some (mkProcessedEmail now e s f m c a d su fr dt) := by
  unfold rowById ServiceState.mark_email_processed
  exact find?_replace _ _ _ (by simp [mkProcessedEmail])

/-- The freshly upserted record makes `is_email_processed` true. -/
theorem is_processed_mark_self (st : ServiceState) (now : Nat) (e s f : String)
    (m : Option String) (c : Option Dict) (a d su fr : Option String) (dt : Option Nat) :
    (st.mark_email_processed now e s f m c a d su fr dt).2.is_email_processed e s f m
      = true := by
  unfold ServiceState.is_email_processed ServiceState.mark_email_processed
  simp [List.any_append, mkProcessedEmail]

/-- Upserting a record with a different identity preserves a positive
`is_email_processed`. -/
theorem is_processed_mark_preserve (st : ServiceState) (now : Nat) (e s f : String)
    (m : Option String) (e' s' f' : String) (m' : Option String)
    (c : Option Dict) (a d su fr : Option String) (dt : Option Nat)
    (hne : _generate_email_hash e s f m ≠ _generate_email_hash e' s' f' m')
    (h : st.is_email_processed e s f m = true) :
    (st.mark_email_processed now e' s' f' m' c a d su fr dt).2.is_email_processed e s f m
      = true := by
  unfold ServiceState.is_email_processed ServiceState.mark_email_processed
  unfold ServiceState.is_email_processed at h
  simp only [List.any_append, Bool.or_eq_true, List.any_eq_true] at *
  obtain ⟨r, hr, hrid⟩ := h
  refine Or.inl ⟨r, List.mem_filter.mpr ⟨hr, ?_⟩, hrid⟩
  simp only [decide_eq_true_eq] at hrid
  simp [mkProcessedEmail, hrid, hne]

/-! ## C6 — deduplication identity -/

/-- C6: the dedup identity is deterministic: with a non-empty transport
message-id the key is the hash of that identifier alone (independent of local
id, source, folder); an empty message-id behaves like an absent one, in which
case the key is the hash of `source:folder:local_id`; and changing the folder
changes the value (witnessed at the spec's concrete instance). -/
theorem emma_c6_dedup_identity :
    (∀ (id1 s1 f1 id2 s2 f2 m : String), m ≠ "" →
      _generate_email_hash id1 s1 f1 (some m) = _generate_email_hash id2 s2 f2 (some m))
    ∧ (∀ (i s f : String),
      _generate_email_hash i s f (some "") = _generate_email_hash i s f none)
    ∧ (∀ (i s f : String),
      _generate_email_hash i s f none = sha256hex (s ++ ":" ++ f ++ ":" ++ i))
    ∧ _generate_email_hash "123" "s" "INBOX" none ≠ _generate_email_hash "123" "s" "Sent" none := by
  refine ⟨?_, ?_, ?_, ?_⟩
  · intro id1 s1 f1 id2 s2 f2 m hm
    simp [_generate_email_hash, hm]
  · intro i s f
    simp [_generate_email_hash]
  · intro i s f
    rfl
  · decide

/-- C6 witness: two sightings of one physical message via different sources,
folders and local ids collapse to the same key. -/
theorem emma_c6_dedup_identity_witness :
    "mid@example" ≠ "" ∧
    _generate_email_hash "1" "imap" "INBOX" (some "mid@example")
      = _generate_email_hash "2" "notmuch" "Sent" (some "mid@example") :=
  ⟨by decide, emma_c6_dedup_identity.1 "1" "imap" "INBOX" "2" "notmuch" "Sent" "mid@example"
    (by decide)⟩

/-! ## C1 — action-item extraction against this store -/

/-- C1 (code bug): with an LLM configured, `extract_from_email` persists
nothing and returns no items for every input — the confidence filter's
`self.config.confidence_threshold` access raises `AttributeError`
(`ActionItemConfig` declares no such field), the top-level handler swallows
it, and even the persistence call itself passes the keyword `relevance`,
which `state.py`'s `create_action_item` does not declare. -/
theorem emma_c1_extract_never_persists :
    (∀ (st : ServiceState) (cfg : ActionItemConfig) (out : Except PyErr (List Candidate))
       (email : Email) (now : Nat) (freshIds : Nat → String),
      extract_from_email st cfg (some out) email now freshIds = ([], st))
    ∧ confidenceThresholdAttr {} = Except.error PyErr.attributeError
    ∧ "relevance" ∈ extractCreateCallKwargs
    ∧ "relevance" ∉ createActionItemParams := by
  refine ⟨?_, rfl, by decide, by decide⟩
  intro st cfg out email now freshIds
  cases out with
  | error e => rfl
  | ok cands =>
    cases cands with
    | nil => rfl
    | cons c cs => rfl

/-! ## C2 — the digest's Action Items section -/

/-- Rendering the digest markdown with the action-items section enabled
raises `TypeError`: the `list_action_items(relevance="direct", limit=20)`
call passes a keyword that `state.py` does not declare. -/
theorem markdown_raises_when_enabled (st : ServiceState) (cfg : DigestConfig)
    (emails : List ProcessedEmailRow) (summary : String) (now : Nat)
    (h : cfg.include_action_items = true) :
    _generate_markdown st cfg emails summary now = Except.error PyErr.typeError := by
  unfold _generate_markdown
  rw [h]
  rfl

/-- C2 (code bug): whenever digest generation runs with the
include-action-items configuration enabled, rendering fails with `TypeError`
instead of producing a digest with an Action Items section (shown for any
forced run, which always reaches the rendering step). -/
theorem emma_c2_action_items_section_raises :
    ∀ (st : ServiceState) (cfg : DigestConfig)
      (llm : Option (List ProcessedEmailRow → Except PyErr String))
      (now : Nat) (uuid : String) (ph : Option Nat),
    cfg.include_action_items = true →
    generate st cfg llm now uuid ph true = Except.error PyErr.typeError := by
  intro st cfg llm now uuid ph h
  unfold generate
  simp only [Bool.not_true, Bool.and_false, if_neg, Bool.false_eq_true, not_false_eq_true,
    if_false]
  rw [markdown_raises_when_enabled _ _ _ _ _ h]
  rfl

/-- C2 witness: the default configuration enables the section, and a forced
generation over the empty store raises. -/
theorem emma_c2_action_items_section_raises_witness :
    ({} : DigestConfig).include_action_items = true ∧
    generate emptyState {} none 100 "u2" none true = Except.error PyErr.typeError :=
  ⟨rfl, emma_c2_action_items_section_raises emptyState {} none 100 "u2" none rfl⟩

/-! ## C4 — generate under force -/

/-- C4 (code bug): with the default configuration (which enables the
action-items section) a forced `generate` raises `TypeError` instead of
returning a digest with `email_count = 0`. -/
theorem emma_c4_force_generate_raises :
    generate emptyState {} none 200 "u4" (some 12) true = Except.error PyErr.typeError := by
  rfl

/-! ## C5 — digest exclusion accounting -/

/-- C5: over three undigested records of which one is spam, a successful
`generate` yields `email_count = 2`, links both relevant records to the new
digest id and the spam record to the `"filtered"` sentinel; immediately
re-invoking `generate` finds nothing undigested and returns null (unforced)
or a fresh digest with `email_count = 0` that re-includes nothing and touches
no processed record (forced). -/
theorem emma_c5_digest_exclusion_accounting :
    genEmailCount c5Res1 = some 2
    ∧ rowDigest c5St1 "h1" = some (some "d1")
    ∧ rowDigest c5St1 "h3" = some (some "d1")
    ∧ rowDigest c5St1 "h2" = some (some "filtered")
    ∧ c5St1.get_undigested_emails 55 = []
    ∧ c5Res2 = Except.ok (none, c5St1)
    ∧ genEmailCount c5Res2f = some 0
    ∧ (genState c5St1 c5Res2f).processed_emails = c5St1.processed_emails := by
  decide

/-! ## C3 — digest link monotonicity -/

/-- C3 counterexample: `mark_email_processed` is a ledger-store operation
other than retention deletion, yet re-upserting an already-linked record with
`digest_id=None` returns it to an unlinked state: after marking, linking via
the upsert's own `digest_id`, the second plain mark leaves the record with a
null digest link. -/
theorem emma_c3_counterexample :
    (rowDigest ((emptyState.mark_email_processed 10 "e1" "imap" "INBOX" none none none
        (some "d0") none none none).2) (_generate_email_hash "e1" "imap" "INBOX" none)
      = some (some "d0"))
    ∧ (rowDigest (((emptyState.mark_email_processed 10 "e1" "imap" "INBOX" none none none
        (some "d0") none none none).2.mark_email_processed 11 "e1" "imap" "INBOX" none none
        none none none none none).2) (_generate_email_hash "e1" "imap" "INBOX" none)
      = some none) := by
  decide

/-- C3 (amended): once every record under a hash id carries a non-null digest
link, every ledger-store operation other than a `markProcessed` upsert of
that same identity (and other than retention deletion, which removes rather
than unlinks — and in fact preserves the property as stated) leaves every
surviving record under that id with a non-null link; in particular
`update_email_digest_id` can only overwrite the link with another non-null
value, never clear it. -/
theorem emma_c3_amended_link_monotonic :
    ∀ (st : ServiceState) (hid : String) (op : LedgerOp),
    allLinked st hid = true →
    (match op with
     | LedgerOp.markProcessed _ e s f m _ _ _ _ _ _ => _generate_email_hash e s f m ≠ hid
     | _ => True) →
    allLinked (op.apply st) hid = true := by
  intro st hid op h hop
  cases op with
  | markProcessed now e s f m c a d su fr dt =>
    simp only [LedgerOp.apply, ServiceState.mark_email_processed, allLinked,
      List.all_append, Bool.and_eq_true, List.all_eq_true] at *
    constructor
    · intro r hr
      exact h r (List.mem_filter.mp hr).1
    · intro r hr
      simp only [List.mem_singleton] at hr
      subst hr
      simp [mkProcessedEmail, hop]
  | updateEmailDigestId target d =>
    simp only [LedgerOp.apply, ServiceState.update_email_digest_id, allLinked,
      List.all_eq_true, List.mem_map] at *
    rintro r ⟨r0, hr0, rfl⟩
    by_cases hid0 : r0.id = target
    · simp [hid0]
    · simp only [if_neg hid0]
      exact h r0 hr0
  | createDigest i now ps pe ec su rc =>
    simpa [LedgerOp.apply, ServiceState.create_digest, allLinked] using h
  | updateDigestStatus d s =>
    simpa [LedgerOp.apply, ServiceState.update_digest_status, allLinked] using h
  | createActionItem i now e t de p u du dg me =>
    simpa [LedgerOp.apply, ServiceState.create_action_item, allLinked] using h
  | updateActionStatus i s now =>
    simpa [LedgerOp.apply, ServiceState.update_action_status, allLinked] using h
  | cleanup now days =>
    simp only [LedgerOp.apply, ServiceState.cleanup_old_data, allLinked,
      List.all_eq_true] at *
    intro r hr
    exact h r (List.mem_filter.mp hr).1

/-- C3 amended witness: upserting a record of a different identity leaves the
linked record linked. -/
theorem emma_c3_amended_link_monotonic_witness :
    allLinked ⟨[c3Row], [], []⟩ "h1" = true
    ∧ allLinked (LedgerOp.apply (LedgerOp.markProcessed 5 "eX" "imap" "INBOX" none none none
        none none none none) ⟨[c3Row], [], []⟩) "h1" = true :=
  ⟨by decide,
   emma_c3_amended_link_monotonic ⟨[c3Row], [], []⟩ "h1"
     (LedgerOp.markProcessed 5 "eX" "imap" "INBOX" none none none none none none none)
     (by decide) (by decide)⟩

/-! ## C7 — markProcessed upsert semantics -/

/-- C7: when two `mark_email_processed` calls compute the same identity, the
store afterwards holds the rows it held before minus any row of that
identity, plus exactly one record of that identity whose fields are those of
the most recent call — re-processing neither duplicates nor errors. -/
theorem emma_c7_mark_processed_upsert :
    ∀ (st : ServiceState) (n1 n2 : Nat)
      (e1 s1 f1 : String) (m1 : Option String) (c1 : Option Dict)
      (a1 d1 su1 fr1 : Option String) (dt1 : Option Nat)
      (e2 s2 f2 : String) (m2 : Option String) (c2 : Option Dict)
      (a2 d2 su2 fr2 : Option String) (dt2 : Option Nat),
    _generate_email_hash e1 s1 f1 m1 = _generate_email_hash e2 s2 f2 m2 →
    (((st.mark_email_processed n1 e1 s1 f1 m1 c1 a1 d1 su1 fr1 dt1).2.mark_email_processed
        n2 e2 s2 f2 m2 c2 a2 d2 su2 fr2 dt2).2.processed_emails
      = st.processed_emails.filter
          (fun r => !(decide (r.id = _generate_email_hash e2 s2 f2 m2)))
        ++ [mkProcessedEmail n2 e2 s2 f2 m2 c2 a2 d2 su2 fr2 dt2])
    ∧ (((st.mark_email_processed n1 e1 s1 f1 m1 c1 a1 d1 su1 fr1 dt1).2.mark_email_processed
        n2 e2 s2 f2 m2 c2 a2 d2 su2 fr2 dt2).2.processed_emails.filter
          (fun r => decide (r.id = _generate_email_hash e2 s2 f2 m2))).length = 1 := by
  intro st n1 n2 e1 s1 f1 m1 c1 a1 d1 su1 fr1 dt1 e2 s2 f2 m2 c2 a2 d2 su2 fr2 dt2 hh
  have hidem :
      (st.processed_emails.filter
          (fun r => !(decide (r.id = _generate_email_hash e2 s2 f2 m2)))).filter
        (fun r => !(decide (r.id = _generate_email_hash e2 s2 f2 m2)))
      = st.processed_emails.filter
          (fun r => !(decide (r.id = _generate_email_hash e2 s2 f2 m2))) :=
    filter_not_idem (fun r => decide (r.id = _generate_email_hash e2 s2 f2 m2))
      st.processed_emails
  have hnone :
      (st.processed_emails.filter
          (fun r => !(decide (r.id = _generate_email_hash e2 s2 f2 m2)))).filter
        (fun r => decide (r.id = _generate_email_hash e2 s2 f2 m2)) = [] :=
    filter_of_filter_not (fun r => decide (r.id = _generate_email_hash e2 s2 f2 m2))
      st.processed_emails
  have hmain :
      ((st.mark_email_processed n1 e1 s1 f1 m1 c1 a1 d1 su1 fr1 dt1).2.mark_email_processed
        n2 e2 s2 f2 m2 c2 a2 d2 su2 fr2 dt2).2.processed_emails
      = st.processed_emails.filter
          (fun r => !(decide (r.id = _generate_email_hash e2 s2 f2 m2)))
        ++ [mkProcessedEmail n2 e2 s2 f2 m2 c2 a2 d2 su2 fr2 dt2] := by
    simp only [ServiceState.mark_email_processed, List.filter_append]
    rw [show (mkProcessedEmail n1 e1 s1 f1 m1 c1 a1 d1 su1 fr1 dt1).id
        = _generate_email_hash e1 s1 f1 m1 from rfl]
    rw [show (mkProcessedEmail n2 e2 s2 f2 m2 c2 a2 d2 su2 fr2 dt2).id
        = _generate_email_hash e2 s2 f2 m2 from rfl]
    rw [hh, hidem]
    simp [List.filter_cons, mkProcessedEmail, hh]
  refine ⟨hmain, ?_⟩
  rw [hmain, List.filter_append, hnone]
  simp [List.filter_cons, mkProcessedEmail]

/-- C7 witness: two identical poll events of one message leave a single-row
ledger holding the second call's record. -/
theorem emma_c7_mark_processed_upsert_witness :
    _generate_email_hash "e1" "imap" "INBOX" (some "m@x")
      = _generate_email_hash "e1" "imap" "INBOX" (some "m@x")
    ∧ ((((emptyState.mark_email_processed 1 "e1" "imap" "INBOX" (some "m@x")
          none none none none none none).2.mark_email_processed 2 "e1" "imap" "INBOX"
          (some "m@x") none none none none none none).2.processed_emails
        = emptyState.processed_emails.filter
            (fun r => !(decide (r.id = _generate_email_hash "e1" "imap" "INBOX" (some "m@x"))))
          ++ [mkProcessedEmail 2 "e1" "imap" "INBOX" (some "m@x") none none none none none none])
      ∧ ((((emptyState.mark_email_processed 1 "e1" "imap" "INBOX" (some "m@x")
          none none none none none none).2.mark_email_processed 2 "e1" "imap" "INBOX"
          (some "m@x") none none none none none none).2.processed_emails.filter
            (fun r => decide
              (r.id = _generate_email_hash "e1" "imap" "INBOX" (some "m@x")))).length
        = 1)) :=
  ⟨rfl,
   emma_c7_mark_processed_upsert emptyState 1 2 "e1" "imap" "INBOX" (some "m@x")
     none none none none none none "e1" "imap" "INBOX" (some "m@x")
     none none none none none none rfl⟩

/-! ## C10 — completion timestamp COALESCE semantics -/

/-- `find?` by id commutes with an id-preserving conditional row update. -/
theorem find?_update_action (l : List ActionItemRow) (item_id : String)
    (g : ActionItemRow → ActionItemRow) (hg : ∀ r, (g r).id = r.id) :
    (l.map (fun r => if r.id = item_id then g r else r)).find?
        (fun r => decide (r.id = item_id))
      = (l.find? (fun r => decide (r.id = item_id))).map g := by
  induction l with
  | nil => rfl
  | cons x xs ih =>
    by_cases h : x.id = item_id
    · simp [List.find?, h, hg]
    · simp [List.find?, h, ih]

/-- C10: `update_action_status` stamps `completed_at` exactly on the
transition to completed; a subsequent transition to a non-completed status
keeps the stored timestamp (COALESCE) and changes nothing but the status. -/
theorem emma_c10_completed_at_append_only :
    ∀ (st : ServiceState) (item_id : String) (r : ActionItemRow) (t1 t2 : Nat),
    actionById st item_id = some r →
    ((st.update_action_status item_id ActionItemStatus.completed t1).1 = true
     ∧ actionById (st.update_action_status item_id ActionItemStatus.completed t1).2 item_id
        = some { r with status := ActionItemStatus.completed, completed_at := some t1 }
     ∧ actionById ((st.update_action_status item_id ActionItemStatus.completed
          t1).2.update_action_status item_id ActionItemStatus.in_progress t2).2 item_id
        = some { r with status := ActionItemStatus.in_progress, completed_at := some t1 }) := by
  intro st item_id r t1 t2 h
  refine ⟨?_, ?_, ?_⟩
  · have hmem := List.mem_of_find?_eq_some h
    have hpred := List.find?_some h
    exact List.any_eq_true.mpr ⟨r, hmem, hpred⟩
  · unfold actionById at *
    show (st.action_items.map (fun x =>
        if x.id = item_id then
          { x with status := ActionItemStatus.completed, completed_at := some t1 }
        else x)).find? (fun x => decide (x.id = item_id))
      = some { r with status := ActionItemStatus.completed, completed_at := some t1 }
    rw [find?_update_action st.action_items item_id
      (fun x => { x with status := ActionItemStatus.completed, completed_at := some t1 })
      (fun _ => rfl)]
    rw [h]
    rfl
  · unfold actionById at *
    show ((st.action_items.map (fun x =>
        if x.id = item_id then
          { x with status := ActionItemStatus.completed, completed_at := some t1 }
        else x)).map (fun x =>
        if x.id = item_id then
          { x with status := ActionItemStatus.in_progress, completed_at := x.completed_at }
        else x)).find? (fun x => decide (x.id = item_id))
      = some { r with status := ActionItemStatus.in_progress, completed_at := some t1 }
    rw [find?_update_action _ item_id
      (fun x => { x with status := ActionItemStatus.in_progress,
                         completed_at := x.completed_at })
      (fun _ => rfl)]
    rw [find?_update_action st.action_items item_id
      (fun x => { x with status := ActionItemStatus.completed, completed_at := some t1 })
      (fun _ => rfl)]
    rw [h]
    rfl

/-- C10 witness: complete then restart one concrete item; the completion
timestamp survives the restart. -/
theorem emma_c10_completed_at_append_only_witness :
    actionById ⟨[], [], [c10Row]⟩ "a1" = some c10Row
    ∧ (((⟨[], [], [c10Row]⟩ : ServiceState).update_action_status "a1"
          ActionItemStatus.completed 7).1 = true
       ∧ actionById ((⟨[], [], [c10Row]⟩ : ServiceState).update_action_status "a1"
            ActionItemStatus.completed 7).2 "a1"
          = some { c10Row with status := ActionItemStatus.completed, completed_at := some 7 }
       ∧ actionById (((⟨[], [], [c10Row]⟩ : ServiceState).update_action_status "a1"
            ActionItemStatus.completed 7).2.update_action_status "a1"
            ActionItemStatus.in_progress 8).2 "a1"
          = some { c10Row with status := ActionItemStatus.in_progress,
                               completed_at := some 7 }) :=
  ⟨by decide, emma_c10_completed_at_append_only ⟨[], [], [c10Row]⟩ "a1" c10Row 7 8 (by decide)⟩

/-! ## C9 — processOne records every message -/

/-- C9: `process_email` (absent a storage fault) never aborts: it returns a
normal outcome and the ledger afterwards holds the record under the message's
dedup identity carrying exactly the classification step 1 obtained —
in particular, when classification is enabled and its collaborator raises,
the stored classification is absent and the error is recorded on the
outcome; likewise a raising rules step or extraction step is recorded on the
outcome rather than aborting. -/
theorem emma_c9_process_email_always_marks :
    ∀ (cfg : MonitorConfig) (email : Email)
      (cl : Option (Except PyErr (String × String)))
      (ru : Option (Except PyErr (List String × List String)))
      (ex : Option (ServiceState → (Except PyErr (List String)) × ServiceState))
      (now : Nat) (st : ServiceState),
    exceptIsOk (process_email cfg email cl ru ex none now st).1 = true
    ∧ rowById (process_email cfg email cl ru ex none now st).2 (emailHash email)
        = some (mkProcessedEmail now email.id email.source email.folder email.message_id
            (classificationStep cfg cl).1 none none none none none)
    ∧ (match cfg.auto_classify, cl with
       | true, some (Except.error e) =>
         (rowById (process_email cfg email cl ru ex none now st).2 (emailHash email)).map
             ProcessedEmailRow.classification = some none
         ∧ ("Classification error: " ++ pyErrMsg e)
             ∈ resultErrors (process_email cfg email cl ru ex none now st).1
       | _, _ => True)
    ∧ (match cfg.apply_rules, ru with
       | true, some (Except.error e) =>
         ("Rules error: " ++ pyErrMsg e)
           ∈ resultErrors (process_email cfg email cl ru ex none now st).1
       | _, _ => True)
    ∧ (match cfg.extract_actions, ex with
       | true, some f =>
         (match (f st).1 with
          | Except.error e =>
            ("Action extraction error: " ++ pyErrMsg e)
              ∈ resultErrors (process_email cfg email cl ru ex none now st).1
          | Except.ok _ => True)
       | _, _ => True) := by
  intro cfg email cl ru ex now st
  refine ⟨rfl,
    rowById_mark ((extractionStep cfg ex st).2.2) now email.id email.source email.folder
      email.message_id ((classificationStep cfg cl).1) none none none none none,
    ?_, ?_, ?_⟩
  · cases hac : cfg.auto_classify with
    | false =>
      cases cl with
      | none => trivial
      | some o => cases o with
        | ok v => trivial
        | error e => trivial
    | true =>
      cases cl with
      | none => trivial
      | some o => cases o with
        | ok v => trivial
        | error e =>
          constructor
          · rw [show rowById (process_email cfg email (some (Except.error e)) ru ex none now
                st).2 (emailHash email)
              = some (mkProcessedEmail now email.id email.source email.folder email.message_id
                  (classificationStep cfg (some (Except.error e))).1 none none none none none)
              from rowById_mark ((extractionStep cfg ex st).2.2) now email.id email.source
                email.folder email.message_id
                ((classificationStep cfg (some (Except.error e))).1) none none none none none]
            simp [mkProcessedEmail, classificationStep, hac]
          · show ("Classification error: " ++ pyErrMsg e)
              ∈ (classificationStep cfg (some (Except.error e))).2 ++ (rulesStep cfg ru).2
                ++ (extractionStep cfg ex st).2.1
            simp [classificationStep, hac]
  · cases har : cfg.apply_rules with
    | false =>
      cases ru with
      | none => trivial
      | some o => cases o with
        | ok v => trivial
        | error e => trivial
    | true =>
      cases ru with
      | none => trivial
      | some o => cases o with
        | ok v => trivial
        | error e =>
          show ("Rules error: " ++ pyErrMsg e)
            ∈ (classificationStep cfg cl).2 ++ (rulesStep cfg (some (Except.error e))).2
              ++ (extractionStep cfg ex st).2.1
          simp [rulesStep, har]
  · cases hee : cfg.extract_actions with
    | false =>
      cases ex with
      | none => trivial
      | some f => trivial
    | true =>
      cases ex with
      | none => trivial
      | some f =>
        rcases hfst : f st with ⟨fr, fs⟩
        cases fr with
        | ok ids => simp [hfst]
        | error e =>
          simp only [hfst]
          show ("Action extraction error: " ++ pyErrMsg e)
            ∈ (classificationStep cfg cl).2 ++ (rulesStep cfg ru).2
              ++ (extractionStep cfg (some f) st).2.1
          simp [extractionStep, hee, hfst]

/-! ## C8 — cycle isolation -/

/-- Cycle statistics addition is associative. -/
theorem CycleStats.add_assoc (a b c : CycleStats) : (a.add b).add c = a.add (b.add c) := by
  cases a; cases b; cases c
  simp [CycleStats.add, Nat.add_assoc]

/-- One cycle step only ever adds to the statistics: its contribution is the
step run from zeroed statistics. -/
theorem runStep_add (p : Email → ServiceState → Except PyErr ProcResult × ServiceState)
    (a : CycleStats) (s : ServiceState) (e : Email) :
    runStep p (a, s) e
      = (a.add (runStep p (⟨0, 0, 0, 0⟩, s) e).1, (runStep p (⟨0, 0, 0, 0⟩, s) e).2) := by
  obtain ⟨f0, p0, e0, c0⟩ := a
  rcases hp : p e s with ⟨r1, s'⟩
  cases r1 <;> simp [runStep, hp, CycleStats.add]

/-- The whole per-message fold only ever adds to the statistics. -/
theorem foldl_runStep_add (p : Email → ServiceState → Except PyErr ProcResult × ServiceState)
    (l : List Email) :
    ∀ (a : CycleStats) (s : ServiceState),
    l.foldl (runStep p) (a, s)
      = (a.add (l.foldl (runStep p) (⟨0, 0, 0, 0⟩, s)).1,
         (l.foldl (runStep p) (⟨0, 0, 0, 0⟩, s)).2) := by
  induction l with
  | nil =>
    intro a s
    obtain ⟨f0, p0, e0, c0⟩ := a
    simp [CycleStats.add]
  | cons e l ih =>
    intro a s
    simp only [List.foldl_cons]
    rw [runStep_add p a s e]
    rw [show runStep p (⟨0, 0, 0, 0⟩, s) e
        = ((runStep p (⟨0, 0, 0, 0⟩, s) e).1, (runStep p (⟨0, 0, 0, 0⟩, s) e).2) from rfl]
    rw [ih (CycleStats.add a (runStep p (⟨0, 0, 0, 0⟩, s) e).1) (runStep p (⟨0, 0, 0, 0⟩, s) e).2]
    rw [ih ((runStep p (⟨0, 0, 0, 0⟩, s) e).1) (runStep p (⟨0, 0, 0, 0⟩, s) e).2]
    rw [CycleStats.add_assoc]

/-- One cycle step leaves the state the processing left behind. -/
theorem runStep_snd (p : Email → ServiceState → Except PyErr ProcResult × ServiceState)
    (a : CycleStats) (s : ServiceState) (e : Email) :
    (runStep p (a, s) e).2 = (p e s).2 := by
  rcases hp : p e s with ⟨r1, s'⟩
  cases r1 <;> simp [runStep, hp]

/-- The state component of the per-message fold is `stateAfter`. -/
theorem foldl_runStep_state (p : Email → ServiceState → Except PyErr ProcResult × ServiceState)
    (l : List Email) :
    ∀ (a : CycleStats) (s : ServiceState),
    (l.foldl (runStep p) (a, s)).2 = stateAfter p l s := by
  induction l with
  | nil => intro a s; rfl
  | cons e l ih =>
    intro a s
    simp only [List.foldl_cons, stateAfter]
    rw [show runStep p (a, s) e = ((runStep p (a, s) e).1, (runStep p (a, s) e).2) from rfl]
    rw [ih ((runStep p (a, s) e).1) ((runStep p (a, s) e).2)]
    rw [runStep_snd]

/-- C8: `run_cycle` isolates failures. (a) An exception escaping the poll
step aborts the cycle: one error, nothing found or processed, store
untouched. (b) In general, a message whose processing raises (leaving the
store as it found it) contributes exactly one found and one error — the
remaining messages are processed exactly as if the failing one were absent.
(c) Concretely, for a poll of three messages where processing of the second
raises a storage fault, the cycle reports `emails_found=3`,
`emails_processed=2`, `errors=1`, and the first and third messages are in the
ledger as processed. -/
theorem emma_c8_run_cycle_isolation :
    (∀ (e : PyErr) (process : Email → ServiceState → Except PyErr ProcResult × ServiceState)
       (st : ServiceState),
      run_cycle (Except.error e) process st
        = ({ emails_found := 0, emails_processed := 0, errors := 1,
             action_items_created := 0 }, st))
    ∧ (∀ (process : Email → ServiceState → Except PyErr ProcResult × ServiceState)
        (pre : List Email) (m : Email) (post : List Email) (st : ServiceState) (err : PyErr),
      (process m (stateAfter process pre st)).1 = Except.error err →
      (process m (stateAfter process pre st)).2 = stateAfter process pre st →
      run_cycle (Except.ok (pre ++ m :: post)) process st
        = ({ (run_cycle (Except.ok (pre ++ post)) process st).1 with
             emails_found :=
               (run_cycle (Except.ok (pre ++ post)) process st).1.emails_found + 1,
             errors := (run_cycle (Except.ok (pre ++ post)) process st).1.errors + 1 },
           (run_cycle (Except.ok (pre ++ post)) process st).2))
    ∧ (∀ (m1 m2 m3 : Email) (cfg : MonitorConfig) (st : ServiceState) (err : PyErr)
        (mf : Email → Option PyErr) (now : Nat),
      mf m1 = none → mf m2 = some err → mf m3 = none →
      emailHash m1 ≠ emailHash m3 →
      ((run_cycle (Except.ok [m1, m2, m3])
          (fun e s => process_email cfg e none none none (mf e) now s) st).1
        = { emails_found := 3, emails_processed := 2, errors := 1, action_items_created := 0 }
       ∧ (run_cycle (Except.ok [m1, m2, m3])
            (fun e s => process_email cfg e none none none (mf e) now s)
            st).2.is_email_processed m1.id m1.source m1.folder m1.message_id = true
       ∧ (run_cycle (Except.ok [m1, m2, m3])
            (fun e s => process_email cfg e none none none (mf e) now s)
            st).2.is_email_processed m3.id m3.source m3.folder m3.message_id = true)) := by
  refine ⟨fun e process st => rfl, ?_, ?_⟩
  · intro process pre m post st err h1 h2
    have hp : process m (stateAfter process pre st)
        = (Except.error err, stateAfter process pre st) := by
      rcases hq : process m (stateAfter process pre st) with ⟨r1, s'⟩
      rw [hq] at h1 h2
      simp only at h1 h2
      rw [h1, h2]
    unfold run_cycle
    simp only [List.foldl_append, List.foldl_cons, List.length_append, List.length_cons]
    rw [foldl_runStep_add process pre ⟨pre.length + (post.length + 1), 0, 0, 0⟩ st]
    rw [foldl_runStep_add process pre ⟨pre.length + post.length, 0, 0, 0⟩ st]
    rw [foldl_runStep_state process pre ⟨0, 0, 0, 0⟩ st]
    have hstep : runStep process
        (CycleStats.add ⟨pre.length + (post.length + 1), 0, 0, 0⟩
          ((pre.foldl (runStep process) (⟨0, 0, 0, 0⟩, st)).1),
         stateAfter process pre st) m
        = ({ CycleStats.add ⟨pre.length + (post.length + 1), 0, 0, 0⟩
              ((pre.foldl (runStep process) (⟨0, 0, 0, 0⟩, st)).1) with
             errors := (CycleStats.add ⟨pre.length + (post.length + 1), 0, 0, 0⟩
              ((pre.foldl (runStep process) (⟨0, 0, 0, 0⟩, st)).1)).errors + 1 },
           stateAfter process pre st) := by
      unfold runStep
      simp only [hp]
    rw [hstep]
    rw [foldl_runStep_add process post
      ({ CycleStats.add ⟨pre.length + (post.length + 1), 0, 0, 0⟩
          ((pre.foldl (runStep process) (⟨0, 0, 0, 0⟩, st)).1) with
         errors := (CycleStats.add ⟨pre.length + (post.length + 1), 0, 0, 0⟩
          ((pre.foldl (runStep process) (⟨0, 0, 0, 0⟩, st)).1)).errors + 1 })
      (stateAfter process pre st)]
    rw [foldl_runStep_add process post
      (CycleStats.add ⟨pre.length + post.length, 0, 0, 0⟩
        ((pre.foldl (runStep process) (⟨0, 0, 0, 0⟩, st)).1))
      (stateAfter process pre st)]
    rcases hd1 : (pre.foldl (runStep process) ((⟨0, 0, 0, 0⟩ : CycleStats), st)).1
      with ⟨d1f, d1p, d1e, d1c⟩
    rcases hd2 : (post.foldl (runStep process)
        ((⟨0, 0, 0, 0⟩ : CycleStats), stateAfter process pre st)).1
      with ⟨d2f, d2p, d2e, d2c⟩
    simp [CycleStats.add, Prod.mk.injEq, CycleStats.mk.injEq]
    omega
  · intro m1 m2 m3 cfg st err mf now h1 h2 h3 hne
    obtain ⟨en, ac, ar, ea⟩ := cfg
    have hP : ∀ (e : Email) (s : ServiceState),
        process_email ⟨en, ac, ar, ea⟩ e none none none (mf e) now s
        = (match mf e with
           | some er => (Except.error er, s)
           | none =>
             (Except.ok
               { email_id := e.id, source := e.source, folder := e.folder,
                 classification := none, llm_analysis := none, rules_applied := [],
                 action_items := [], errors := [] },
              (s.mark_email_processed now e.id e.source e.folder e.message_id
                none none none none none none).2)) := by
      intro e s
      cases hmf : mf e <;>
        cases ac <;> cases ar <;> cases ea <;>
          simp [process_email, classificationStep, rulesStep, extractionStep, hmf]
    have hP1 : ∀ s : ServiceState,
        process_email ⟨en, ac, ar, ea⟩ m1 none none none (mf m1) now s
        = (Except.ok
            { email_id := m1.id, source := m1.source, folder := m1.folder,
              classification := none, llm_analysis := none, rules_applied := [],
              action_items := [], errors := [] },
           (s.mark_email_processed now m1.id m1.source m1.folder m1.message_id
             none none none none none none).2) := by
      intro s
      rw [hP m1 s, h1]
    have hP2 : ∀ s : ServiceState,
        process_email ⟨en, ac, ar, ea⟩ m2 none none none (mf m2) now s
        = (Except.error err, s) := by
      intro s
      rw [hP m2 s, h2]
    have hP3 : ∀ s : ServiceState,
        process_email ⟨en, ac, ar, ea⟩ m3 none none none (mf m3) now s
        = (Except.ok
            { email_id := m3.id, source := m3.source, folder := m3.folder,
              classification := none, llm_analysis := none, rules_applied := [],
              action_items := [], errors := [] },
           (s.mark_email_processed now m3.id m3.source m3.folder m3.message_id
             none none none none none none).2) := by
      intro s
      rw [hP m3 s, h3]
    have hstep1 : ∀ (a : CycleStats) (s : ServiceState),
        runStep (fun e s => process_email ⟨en, ac, ar, ea⟩ e none none none (mf e) now s)
          (a, s) m1
        = ({ a with emails_processed := a.emails_processed + 1 },
           (s.mark_email_processed now m1.id m1.source m1.folder m1.message_id
             none none none none none none).2) := by
      intro a s
      unfold runStep
      simp [hP1]
    have hstep2 : ∀ (a : CycleStats) (s : ServiceState),
        runStep (fun e s => process_email ⟨en, ac, ar, ea⟩ e none none none (mf e) now s)
          (a, s) m2
        = ({ a with errors := a.errors + 1 }, s) := by
      intro a s
      unfold runStep
      simp [hP2]
    have hstep3 : ∀ (a : CycleStats) (s : ServiceState),
        runStep (fun e s => process_email ⟨en, ac, ar, ea⟩ e none none none (mf e) now s)
          (a, s) m3
        = ({ a with emails_processed := a.emails_processed + 1 },
           (s.mark_email_processed now m3.id m3.source m3.folder m3.message_id
             none none none none none none).2) := by
      intro a s
      unfold runStep
      simp [hP3]
    unfold run_cycle
    simp only [List.foldl_cons, List.foldl_nil, List.length_cons, List.length_nil]
    rw [hstep1, hstep2, hstep3]
    refine ⟨rfl, ?_, ?_⟩
    · exact is_processed_mark_preserve _ now m1.id m1.source m1.folder m1.message_id
        m3.id m3.source m3.folder m3.message_id none none none none none none hne
        (is_processed_mark_self _ now m1.id m1.source m1.folder m1.message_id
          none none none none none none)
    · exact is_processed_mark_self _ now m3.id m3.source m3.folder m3.message_id
        none none none none none none

/-- C8 witness: the three-message scenario and the decomposition, at concrete
inputs. -/
theorem emma_c8_run_cycle_isolation_witness :
    (c8mf c8m1 = none ∧ c8mf c8m2 = some (PyErr.exception "boom") ∧ c8mf c8m3 = none
     ∧ emailHash c8m1 ≠ emailHash c8m3)
    ∧ ((run_cycle (Except.ok [c8m1, c8m2, c8m3]) c8process emptyState).1
        = { emails_found := 3, emails_processed := 2, errors := 1, action_items_created := 0 }
       ∧ (run_cycle (Except.ok [c8m1, c8m2, c8m3]) c8process
            emptyState).2.is_email_processed c8m1.id c8m1.source c8m1.folder c8m1.message_id
          = true
       ∧ (run_cycle (Except.ok [c8m1, c8m2, c8m3]) c8process
            emptyState).2.is_email_processed c8m3.id c8m3.source c8m3.folder c8m3.message_id
          = true)
    ∧ ((c8process c8m2 (stateAfter c8process [c8m1] emptyState)).1
        = Except.error (PyErr.exception "boom")
       ∧ (c8process c8m2 (stateAfter c8process [c8m1] emptyState)).2
        = stateAfter c8process [c8m1] emptyState)
    ∧ run_cycle (Except.ok ([c8m1] ++ c8m2 :: [c8m3])) c8process emptyState
        = ({ (run_cycle (Except.ok ([c8m1] ++ [c8m3])) c8process emptyState).1 with
             emails_found :=
               (run_cycle (Except.ok ([c8m1] ++ [c8m3])) c8process
                 emptyState).1.emails_found + 1,
             errors :=
               (run_cycle (Except.ok ([c8m1] ++ [c8m3])) c8process emptyState).1.errors + 1 },
           (run_cycle (Except.ok ([c8m1] ++ [c8m3])) c8process emptyState).2) :=
  ⟨⟨by decide, by decide, by decide, by decide⟩,
   emma_c8_run_cycle_isolation.2.2 c8m1 c8m2 c8m3 {} emptyState (PyErr.exception "boom")
     c8mf 7 (by decide) (by decide) (by decide) (by decide),
   ⟨by decide, by decide⟩,
   emma_c8_run_cycle_isolation.2.1 c8process [c8m1] c8m2 [c8m3] emptyState
     (PyErr.exception "boom") (by decide) (by decide)⟩
